import Mathlib

/-!
Shallow embedding of `main.py` of the speechless repository: the experiment
Configuration layer, the checkpoint-resolution contract, transfer-learning
training, and the prediction demo. File-system paths are modelled as lists of
path components; the Python `/` path-join operator becomes list append of a
singleton component.
-/

/-- A file-system path, as the list of its components. -/
abbrev FsPath := List String

/-- Modelled from the spec: `home_directory()` from the `tools` module, which is
not under `src/`; an opaque base under which all data directories live. -/
def home_directory : FsPath := ["~"]

def base_directory : FsPath := home_directory ++ ["speechless-data"]

def tensorboard_log_base_directory : FsPath := base_directory ++ ["logs"]

def nets_base_directory : FsPath := base_directory ++ ["nets"]

def recording_directory : FsPath := base_directory ++ ["recordings"]

def corpus_base_directory : FsPath := base_directory ++ ["corpus"]

def spectrogram_cache_base_directory : FsPath := base_directory ++ ["spectrogram-cache"]

def kenlm_base_directory : FsPath := base_directory ++ ["kenlm"]

/-- Modelled from the spec: `english_frequent_characters` from the
`grapheme_enconding` module, which is not under `src/`; an ordered,
deduplicated alphabet of allowed output symbols. Its exact contents are
irrelevant to every claim; only its identity as a fixed constant matters. -/
def english_frequent_characters : List Char := "abcdefghijklmnopqrstuvwxyz '".data

/-- Modelled from the spec: `german_frequent_characters` from the
`grapheme_enconding` module, which is not under `src/`. -/
def german_frequent_characters : List Char := "abcdefghijklmnopqrstuvwxyzäöüß '".data

/-- An opaque labeled-example corpus instance (external collaborator). The tag
stands for object identity, so that memoization claims can distinguish
"identical instance" from "merely equal". -/
structure Corpus where
  tag : Nat
deriving DecidableEq, Repr

/-- A data error raised by an external corpus loader. -/
inductive CorpusError where
  | load_failed (message : String)
deriving DecidableEq, Repr

/-- The directory-to-Corpus functions a Configuration can be built with in
`main.py`: `load_cached_corpus`, `german_corpus` or `english_corpus`. -/
inductive CorpusLoader where
  | load_cached_corpus
  | german_corpus
  | english_corpus
deriving DecidableEq, Repr

/-- The external world the corpus loaders call into: `Corpus.load` and the raw
corpus parsers (external collaborators, specified only by interface). -/
structure CorpusWorld where
  corpusLoad : FsPath → Except CorpusError Corpus
  germanParse : FsPath → Except CorpusError Corpus
  englishParse : FsPath → Except CorpusError Corpus

/-- `load_cached_corpus` from `main.py`: reads the serialized corpus from
`corpus_directory / "corpus.csv"` via `Corpus.load`. -/
def load_cached_corpus (world : CorpusWorld) (corpus_directory : FsPath) :
    Except CorpusError Corpus :=
  world.corpusLoad (corpus_directory ++ ["corpus.csv"])

/-- Dispatch of a Configuration's `corpus_from_directory` function on a
directory, in a given external world. -/
def runCorpusLoader (world : CorpusWorld) :
    CorpusLoader → FsPath → Except CorpusError Corpus
  | CorpusLoader.load_cached_corpus, corpus_directory =>
      load_cached_corpus world corpus_directory
  | CorpusLoader.german_corpus, corpus_directory => world.germanParse corpus_directory
  | CorpusLoader.english_corpus, corpus_directory => world.englishParse corpus_directory

/-- The experiment Configuration of `main.py`, after `__init__` has resolved
the directory defaults. -/
structure Configuration where
  name : String
  allowed_characters : List Char
  corpus_from_directory : CorpusLoader
  corpus_directory : FsPath
  spectrogram_cache_directory : FsPath
deriving DecidableEq, Repr

/-- `Configuration.__init__`: directory fields default to `<base>/<name>` when
the corresponding argument is not supplied (is `None`). -/
def Configuration.make (name : String) (allowed_characters : List Char)
    (corpus_from_directory : CorpusLoader)
    (corpus_directory : Option FsPath) (spectrogram_cache_directory : Option FsPath) :
    Configuration :=
  { name := name
    allowed_characters := allowed_characters
    corpus_from_directory := corpus_from_directory
    corpus_directory :=
      match corpus_directory with
      | some d => d
      | none => corpus_base_directory ++ [name]
    spectrogram_cache_directory :=
      match spectrogram_cache_directory with
      | some d => d
      | none => spectrogram_cache_base_directory ++ [name] }

/-- `Configuration.english()`. -/
def Configuration.english : Configuration :=
  Configuration.make "English" english_frequent_characters CorpusLoader.english_corpus
    none none

/-- `Configuration.german(from_cached)`; in the source `from_cached`
defaults to `True`, so `Configuration.german true` is the default call. -/
def Configuration.german (from_cached : Bool) : Configuration :=
  Configuration.make "German" german_frequent_characters
    (if from_cached then CorpusLoader.load_cached_corpus else CorpusLoader.german_corpus)
    none none

/-- The external `LabeledSpectrogramBatchGenerator`, by the arguments
`main.py` builds it from. -/
structure LabeledSpectrogramBatchGenerator where
  corpus : Corpus
  spectrogram_cache_directory : FsPath
deriving DecidableEq, Repr

/-- The per-instance memo slots the `@lazy` decorator maintains for
`Configuration.corpus` and `Configuration.batch_generator`, plus a log of
every invocation of the configured corpus-loading function (by the directory
it was invoked on). -/
structure ConfigState where
  corpusMemo : Option Corpus
  batchGeneratorMemo : Option LabeledSpectrogramBatchGenerator
  loaderInvocations : List FsPath
deriving DecidableEq, Repr

/-- The state of a freshly constructed Configuration: nothing memoized, the
loader never invoked. -/
def initialState : ConfigState :=
  { corpusMemo := none, batchGeneratorMemo := none, loaderInvocations := [] }

/-- `Configuration.corpus` under the `@lazy` decorator (from the external
`lazy` package): on first access invoke `corpus_from_directory` on
`corpus_directory` and cache the result; on later accesses return the cached
instance; if the loader raises, the exception propagates and nothing is
cached (`@lazy` stores the attribute only after the wrapped function
returns). -/
def Configuration.corpusGet (cfg : Configuration) (world : CorpusWorld)
    (st : ConfigState) : Except CorpusError Corpus × ConfigState :=
  match st.corpusMemo with
  | some c => (Except.ok c, st)
  | none =>
      let st' : ConfigState :=
        { st with loaderInvocations := st.loaderInvocations ++ [cfg.corpus_directory] }
      match runCorpusLoader world cfg.corpus_from_directory cfg.corpus_directory with
      | Except.ok c => (Except.ok c, { st' with corpusMemo := some c })
      | Except.error e => (Except.error e, st')

/-- `Configuration.batch_generator` under the `@lazy` decorator: built from
`self.corpus` (the lazy property, so the corpus may be loaded here) and the
spectrogram-cache directory, and memoized. -/
def Configuration.batchGeneratorGet (cfg : Configuration) (world : CorpusWorld)
    (st : ConfigState) :
    Except CorpusError LabeledSpectrogramBatchGenerator × ConfigState :=
  match st.batchGeneratorMemo with
  | some g => (Except.ok g, st)
  | none =>
      match cfg.corpusGet world st with
      | (Except.ok c, st') =>
          let g : LabeledSpectrogramBatchGenerator :=
            { corpus := c, spectrogram_cache_directory := cfg.spectrogram_cache_directory }
          (Except.ok g, { st' with batchGeneratorMemo := some g })
      | (Except.error e, st') => (Except.error e, st')

/-- The arguments `load_best_wav2letter_model` constructs the external
`Wav2Letter` network with; they identify the checkpoint (directory, epoch,
trained alphabet), the target alphabet, the frozen-layer count and the
optional language-model directory. -/
structure Wav2LetterArgs where
  allowed_characters : List Char
  input_size_per_time_step : Nat
  load_model_from_directory : FsPath
  load_epoch : Nat
  allowed_characters_for_loaded_model : List Char
  frozen_layer_count : Int
  kenlm_directory : Option FsPath
deriving DecidableEq, Repr

/-- `load_best_wav2letter_model` from `main.py`: always loads from the single
hardcoded checkpoint directory at epoch 1192, with
`english_frequent_characters` as the trained alphabet; in the source
`mel_frequency_count` defaults to 128, `frozen_layer_count` to 0,
`allowed_characters` to `english_frequent_characters`, and `use_ken_lm` to
`False`. -/
def load_best_wav2letter_model (mel_frequency_count : Nat)
    (frozen_layer_count : Int) (allowed_characters : List Char)
    (use_ken_lm : Bool) : Wav2LetterArgs :=
  { allowed_characters := allowed_characters
    input_size_per_time_step := mel_frequency_count
    load_model_from_directory :=
      nets_base_directory ++ ["20170316-180957-adam-small-learning-rate-complete-95"]
    load_epoch := 1192
    allowed_characters_for_loaded_model := english_frequent_characters
    frozen_layer_count := frozen_layer_count
    kenlm_directory :=
      if use_ken_lm then some (kenlm_base_directory ++ ["english"]) else none }

/-- A frozen-layer-count contract violation. -/
inductive ConfigurationError where
  | invalid_frozen_layer_count (frozen_layer_count : Int)
deriving DecidableEq, Repr

/-- An observable side effect of resolving a model or training. -/
inductive Effect where
  | load_weights (directory : FsPath) (epoch : Nat)
  | train_net (log_directory : FsPath) (net_directory : FsPath) (batches_per_epoch : Nat)
deriving DecidableEq, Repr

/-- Modelled from the spec: the `Wav2Letter` constructor in `net.py`, which is
not under `src/`. Per spec §4.3/§8 it fails with a `ConfigurationError` when
`frozen_layer_count` lies outside `[0, layer_count]`, and it does so before
any weight is loaded; on success it loads the checkpoint's weights. The
returned effect list records the weight load. -/
def wav2LetterResolve (args : Wav2LetterArgs) (layer_count : Int) :
    Except ConfigurationError (List Effect) :=
  if args.frozen_layer_count < 0 ∨ layer_count < args.frozen_layer_count then
    Except.error (ConfigurationError.invalid_frozen_layer_count args.frozen_layer_count)
  else
    Except.ok [Effect.load_weights args.load_model_from_directory args.load_epoch]

/-- The pure planning part of `train_transfer_from_best_english_model`:
frozen count, run name and model-resolver arguments, computed before any side
effect; `ts` stands for the value `timestamp()` returned. -/
structure TransferPlan where
  frozen_layer_count : Int
  run_name : String
  model_args : Wav2LetterArgs
deriving DecidableEq, Repr

def transferPlan (cfg : Configuration) (ts : String)
    (trainable_layer_count : Int) : TransferPlan :=
  let layer_count : Int := 11
  let frozen_layer_count : Int := layer_count - trainable_layer_count
  { frozen_layer_count := frozen_layer_count
    run_name :=
      ts ++ ("-adam-small-learning-rate-transfer-to-" ++
        (cfg.name ++ ("-freeze-" ++ toString frozen_layer_count)))
    model_args :=
      load_best_wav2letter_model 128 frozen_layer_count cfg.allowed_characters false }

/-- An error escaping `train_transfer_from_best_english_model`: either the
resolver's contract violation or a data error from the corpus loader. -/
inductive TransferError where
  | config (e : ConfigurationError)
  | data (e : CorpusError)
deriving DecidableEq, Repr

/-- `Configuration.train_transfer_from_best_english_model`: computes
`frozen = 11 - trainable`, derives the run name, resolves the model from the
best English checkpoint (spec-modelled validation, see `wav2LetterResolve`),
builds `Wav2LetterWithCorpus` from `self.corpus` (which may load the corpus),
and trains into the two run directories. Returns the outcome, the updated
memo state, and the list of side effects in order. -/
def Configuration.train_transfer_from_best_english_model (cfg : Configuration)
    (ts : String) (trainable_layer_count : Int) (world : CorpusWorld)
    (st : ConfigState) :
    Except TransferError String × ConfigState × List Effect :=
  let plan := transferPlan cfg ts trainable_layer_count
  match wav2LetterResolve plan.model_args 11 with
  | Except.error e => (Except.error (TransferError.config e), st, [])
  | Except.ok model_effects =>
      match cfg.corpusGet world st with
      | (Except.error e, st') => (Except.error (TransferError.data e), st', model_effects)
      | (Except.ok _, st') =>
          (Except.ok plan.run_name, st',
            model_effects ++
              [Effect.train_net (tensorboard_log_base_directory ++ [plan.run_name])
                (nets_base_directory ++ [plan.run_name]) 100])

/-- Modelled from the spec: the identity-matched alphabet weight transfer of
the output layer, performed inside `net.py`'s weight loading (not under
`src/`). The result assigns to every target symbol its weight row: the
checkpoint's row when the symbol is also in the trained alphabet, a freshly
initialized row otherwise; symbols only in the trained alphabet get no row
(they are dropped). `W` is the type of one symbol's weight row. -/
def transferOutputWeights {W : Type} (trained target : List Char)
    (checkpoint fresh_init : Char → W) : List (Char × W) :=
  target.map (fun c => (c, if c ∈ trained then checkpoint c else fresh_init c))

/-- An observable event of the prediction demo: resolving a model, running
`predict_single` of a model on an audio file, or printing a line. -/
inductive PredictEvent where
  | load_model (args : Wav2LetterArgs)
  | predict_single (args : Wav2LetterArgs) (audio_file : FsPath)
  | printed (line : String)

/-- The all-defaults model resolution `load_best_wav2letter_model()` performs:
mel frequency count 128, zero frozen layers, English alphabet, no
language-model fusion. -/
def default_best_model : Wav2LetterArgs :=
  load_best_wav2letter_model 128 0 english_frequent_characters false

/-- `predict_recording` from `main.py`, as the trace of its observable events;
`transcribe` stands for the external `predict_single` on a z-normalized
transposed spectrogram of the file. It takes no Configuration. -/
def predict_recording (transcribe : Wav2LetterArgs → FsPath → String) :
    List PredictEvent :=
  let wav2letter := default_best_model
  let print_prediction_from_file :=
    fun (file_name : String) (description : String) =>
      [PredictEvent.predict_single wav2letter (recording_directory ++ [file_name]),
       PredictEvent.printed (description ++ ": " ++
         ("\"" ++ transcribe wav2letter (recording_directory ++ [file_name]) ++ "\""))]
  [PredictEvent.load_model wav2letter, PredictEvent.printed "Predictions: "] ++
    print_prediction_from_file "6930-75918-0000.flac"
      "Sample labeled \"concord returned to its place amidst the tents\"" ++
    print_prediction_from_file "recording-20170310-135534.wav"
      "Recorded playback of the same sample" ++
    print_prediction_from_file "recording-20170310-135144.wav"
      "Recording of me saying the same sentence" ++
    print_prediction_from_file "recording-20170314-224329.wav"
      "Recording of me saying \"I just wrote a speech recognizer\"" ++
    print_prediction_from_file "bad-quality-louis.wav"
      "Louis' rerecording of worse quality"

/-- The models resolved in a trace, in order. -/
def loadEvents : List PredictEvent → List Wav2LetterArgs
  | [] => []
  | PredictEvent.load_model a :: t => a :: loadEvents t
  | _ :: t => loadEvents t

/-- The (model, audio file) pairs `predict_single` is run on in a trace, in
order. -/
def predictEvents : List PredictEvent → List (Wav2LetterArgs × FsPath)
  | [] => []
  | PredictEvent.predict_single a p :: t => (a, p) :: predictEvents t
  | _ :: t => predictEvents t

/-- Whether the second list (the needle) occurs at the start of the first
list (the hay). -/
def startsWithChars : List Char → List Char → Bool
  | _, [] => true
  | [], _ :: _ => false
  | a :: as, b :: bs => a == b && startsWithChars as bs

/-- Whether `needle` occurs contiguously anywhere in `hay`. -/
def occursInChars : List Char → List Char → Bool
  | [], needle => startsWithChars [] needle
  | a :: t, needle => startsWithChars (a :: t) needle || occursInChars t needle

/-- A concrete checkpoint weight row per symbol, for the witness. -/
def checkpointRow : Char → Nat := fun ch => 2 * ch.toNat

/-- A concrete fresh-initialization row per symbol, everywhere different from
`checkpointRow`, for the witness. -/
def freshRow : Char → Nat := fun ch => 2 * ch.toNat + 1

/-- A world for witnesses whose loaders all succeed, with distinguishable
corpus instances. -/
def testWorld : CorpusWorld :=
  { corpusLoad := fun _ => Except.ok { tag := 0 }
    germanParse := fun _ => Except.ok { tag := 1 }
    englishParse := fun _ => Except.ok { tag := 2 } }

/-- The run name derived for a concrete transfer-training invocation: German
target Configuration, timestamp `20170316-180957`, one trainable layer. -/
def c3_run_name : String :=
  (transferPlan (Configuration.german true) "20170316-180957" 1).run_name

/-- The batch generator `main.py` builds for a Configuration from a given
corpus instance. -/
def builtGenerator (cfg : Configuration) (c : Corpus) :
    LabeledSpectrogramBatchGenerator :=
  { corpus := c, spectrogram_cache_directory := cfg.spectrogram_cache_directory }

/-- A world whose loaders all fail, for the C8 witness. -/
def failingWorld : CorpusWorld :=
  { corpusLoad := fun _ => Except.error (CorpusError.load_failed "missing corpus.csv")
    germanParse := fun _ => Except.error (CorpusError.load_failed "missing raw corpus")
    englishParse := fun _ => Except.error (CorpusError.load_failed "missing raw corpus") }

/-- The lines printed in a trace, in order. -/
def printedLines : List PredictEvent → List String
  | [] => []
  | PredictEvent.printed l :: t => l :: printedLines t
  | _ :: t => printedLines t

theorem lookup_transferOutputWeights {W : Type} (trained target : List Char)
    (checkpoint fresh_init : Char → W) (c : Char) :
    (transferOutputWeights trained target checkpoint fresh_init).lookup c =
      if c ∈ target then
        (if c ∈ trained then some (checkpoint c) else some (fresh_init c))
      else none := by
  induction target with
  | nil => simp [transferOutputWeights]
  | cons a t ih =>
      by_cases hca : c = a
      · subst hca
        by_cases htr : c ∈ trained <;>
          simp [transferOutputWeights, List.lookup, htr]
      · have hb : (c == a) = false := beq_eq_false_iff_ne.mpr hca
        simpa [transferOutputWeights, List.lookup, hb, hca] using ih

/-- C1: resolving the fixed pretrained checkpoint for a target alphabet
transfers the alphabet-dependent output-layer weights matched by symbol
identity, not position: every symbol in both alphabets keeps the checkpoint's
weights, every symbol only in the target alphabet gets freshly initialized
weights, and every symbol only in the trained alphabet is dropped. -/
theorem alphabet_identity_matched_transfer {W : Type} (trained target : List Char)
    (checkpoint fresh_init : Char → W) :
    (∀ c, c ∈ target → c ∈ trained →
      (transferOutputWeights trained target checkpoint fresh_init).lookup c =
        some (checkpoint c)) ∧
    (∀ c, c ∈ target → c ∉ trained →
      (transferOutputWeights trained target checkpoint fresh_init).lookup c =
        some (fresh_init c)) ∧
    (∀ c, c ∉ target →
      (transferOutputWeights trained target checkpoint fresh_init).lookup c = none) := by
  refine ⟨fun c hct hctr => ?_, fun c hct hctr => ?_, fun c hct => ?_⟩
  · simp [lookup_transferOutputWeights, hct, hctr]
  · simp [lookup_transferOutputWeights, hct, hctr]
  · simp [lookup_transferOutputWeights, hct]

/-- Witness for C1 at the spec's example: trained alphabet `{a,b,c}`, target
alphabet `{b,c,d}` — b keeps checkpoint weights, d is fresh, a is dropped. -/
theorem alphabet_identity_matched_transfer_witness :
    (transferOutputWeights ['a', 'b', 'c'] ['b', 'c', 'd'] checkpointRow freshRow).lookup 'b' =
      some (checkpointRow 'b') ∧
    (transferOutputWeights ['a', 'b', 'c'] ['b', 'c', 'd'] checkpointRow freshRow).lookup 'd' =
      some (freshRow 'd') ∧
    (transferOutputWeights ['a', 'b', 'c'] ['b', 'c', 'd'] checkpointRow freshRow).lookup 'a' =
      none :=
  ⟨(alphabet_identity_matched_transfer ['a', 'b', 'c'] ['b', 'c', 'd'] checkpointRow
      freshRow).1 'b' (by decide) (by decide),
   (alphabet_identity_matched_transfer ['a', 'b', 'c'] ['b', 'c', 'd'] checkpointRow
      freshRow).2.1 'd' (by decide) (by decide),
   (alphabet_identity_matched_transfer ['a', 'b', 'c'] ['b', 'c', 'd'] checkpointRow
      freshRow).2.2 'a' (by decide)⟩

/-- C6: `load_best_wav2letter_model` always loads from the single fixed
checkpoint — directory `<nets base>/20170316-180957-adam-small-learning-rate-complete-95`,
epoch 1192, trained alphabet `english_frequent_characters` — regardless of the
target alphabet, frozen-layer count, or language-model toggle. -/
theorem load_best_model_fixed_checkpoint (mel_frequency_count : Nat)
    (frozen_layer_count : Int) (allowed_characters : List Char) (use_ken_lm : Bool) :
    (load_best_wav2letter_model mel_frequency_count frozen_layer_count
        allowed_characters use_ken_lm).load_model_from_directory =
      nets_base_directory ++ ["20170316-180957-adam-small-learning-rate-complete-95"] ∧
    (load_best_wav2letter_model mel_frequency_count frozen_layer_count
        allowed_characters use_ken_lm).load_epoch = 1192 ∧
    (load_best_wav2letter_model mel_frequency_count frozen_layer_count
        allowed_characters use_ken_lm).allowed_characters_for_loaded_model =
      english_frequent_characters :=
  ⟨rfl, rfl, rfl⟩

/-- C7: without explicit directory arguments the corpus directory is
`<corpus base>/<name>` and the cache directory is
`<spectrogram-cache base>/<name>`; an explicit directory is used unchanged, so
same-named Configurations with different explicit directories resolve to
different paths. -/
theorem configuration_directory_resolution (name : String) (allowed : List Char)
    (loader : CorpusLoader) (d1 d2 s1 s2 : FsPath) (hd : d1 ≠ d2) (hs : s1 ≠ s2) :
    (Configuration.make name allowed loader none none).corpus_directory =
      corpus_base_directory ++ [name] ∧
    (Configuration.make name allowed loader none none).spectrogram_cache_directory =
      spectrogram_cache_base_directory ++ [name] ∧
    (Configuration.make name allowed loader (some d1) (some s1)).corpus_directory = d1 ∧
    (Configuration.make name allowed loader (some d1)
        (some s1)).spectrogram_cache_directory = s1 ∧
    (Configuration.make name allowed loader (some d1) (some s1)).corpus_directory ≠
      (Configuration.make name allowed loader (some d2) (some s2)).corpus_directory ∧
    (Configuration.make name allowed loader (some d1)
        (some s1)).spectrogram_cache_directory ≠
      (Configuration.make name allowed loader (some d2)
        (some s2)).spectrogram_cache_directory :=
  ⟨rfl, rfl, rfl, rfl, hd, hs⟩

/-- Witness for C7 at concrete distinct explicit directories. -/
theorem configuration_directory_resolution_witness :
    (["p"] : FsPath) ≠ ["q"] ∧ (["r"] : FsPath) ≠ ["s"] ∧
    ((Configuration.make "X" [] CorpusLoader.english_corpus none none).corpus_directory =
      corpus_base_directory ++ ["X"] ∧
    (Configuration.make "X" [] CorpusLoader.english_corpus none
        none).spectrogram_cache_directory = spectrogram_cache_base_directory ++ ["X"] ∧
    (Configuration.make "X" [] CorpusLoader.english_corpus (some ["p"])
        (some ["r"])).corpus_directory = ["p"] ∧
    (Configuration.make "X" [] CorpusLoader.english_corpus (some ["p"])
        (some ["r"])).spectrogram_cache_directory = ["r"] ∧
    (Configuration.make "X" [] CorpusLoader.english_corpus (some ["p"])
        (some ["r"])).corpus_directory ≠
      (Configuration.make "X" [] CorpusLoader.english_corpus (some ["q"])
        (some ["s"])).corpus_directory ∧
    (Configuration.make "X" [] CorpusLoader.english_corpus (some ["p"])
        (some ["r"])).spectrogram_cache_directory ≠
      (Configuration.make "X" [] CorpusLoader.english_corpus (some ["q"])
        (some ["s"])).spectrogram_cache_directory) :=
  ⟨by decide, by decide,
   configuration_directory_resolution "X" [] CorpusLoader.english_corpus
     ["p"] ["q"] ["r"] ["s"] (by decide) (by decide)⟩

/-- C10: `Configuration.german` with `from_cached = true` (the source's
default) configures `load_cached_corpus`, which reads the serialized corpus
from `<corpus directory>/corpus.csv` via `Corpus.load`; only
`from_cached = false` configures the raw `german_corpus` parser. -/
theorem german_default_from_cached :
    (Configuration.german true).corpus_from_directory =
      CorpusLoader.load_cached_corpus ∧
    (∀ world corpus_directory,
      runCorpusLoader world CorpusLoader.load_cached_corpus corpus_directory =
        world.corpusLoad (corpus_directory ++ ["corpus.csv"])) ∧
    (Configuration.german false).corpus_from_directory = CorpusLoader.german_corpus :=
  ⟨rfl, fun _ _ => rfl, rfl⟩

theorem startsWithChars_of_append (s : List Char) :
    ∀ n : List Char, startsWithChars (n ++ s) n = true
  | [] => by cases s <;> simp [startsWithChars]
  | b :: bs => by
      simp [startsWithChars, startsWithChars_of_append s bs]

theorem occursInChars_of_startsWith (hay needle : List Char)
    (h : startsWithChars hay needle = true) : occursInChars hay needle = true := by
  cases hay with
  | nil => simpa [occursInChars] using h
  | cons a t => simp [occursInChars, h]

theorem occursInChars_append_left (p : List Char) (hay needle : List Char)
    (h : occursInChars hay needle = true) : occursInChars (p ++ hay) needle = true := by
  induction p with
  | nil => simpa using h
  | cons a t ih => simp [occursInChars, ih]

/-- C2: for every negative `trainable_layer_count` and every one exceeding the
total layer count (11), transfer-learning training is rejected with a
`ConfigurationError` (via the spec-modelled resolver validation), the memo
state is untouched and no side effect — no directory creation, no weight
load — occurs. -/
theorem transfer_rejects_invalid_trainable_count (cfg : Configuration)
    (ts : String) (trainable_layer_count : Int) (world : CorpusWorld)
    (st : ConfigState)
    (h : trainable_layer_count < 0 ∨ 11 < trainable_layer_count) :
    cfg.train_transfer_from_best_english_model ts trainable_layer_count world st =
      (Except.error (TransferError.config
        (ConfigurationError.invalid_frozen_layer_count (11 - trainable_layer_count))),
       st, []) := by
  have hfr : (transferPlan cfg ts trainable_layer_count).model_args.frozen_layer_count =
      11 - trainable_layer_count := rfl
  have hcond :
      (transferPlan cfg ts trainable_layer_count).model_args.frozen_layer_count < 0 ∨
      (11 : Int) <
        (transferPlan cfg ts trainable_layer_count).model_args.frozen_layer_count := by
    rw [hfr]; omega
  have hres : wav2LetterResolve (transferPlan cfg ts trainable_layer_count).model_args 11 =
      Except.error (ConfigurationError.invalid_frozen_layer_count
        (11 - trainable_layer_count)) := by
    unfold wav2LetterResolve
    rw [if_pos hcond, hfr]
  simp [Configuration.train_transfer_from_best_english_model, hres]

/-- Witness for C2 at `trainable_layer_count = -1`: rejected with frozen count
12, state untouched, no effects. -/
theorem transfer_rejects_invalid_trainable_count_witness :
    ((-1 : Int) < 0 ∨ (11 : Int) < -1) ∧
    (Configuration.german true).train_transfer_from_best_english_model
        "20170316-180957" (-1) testWorld initialState =
      (Except.error (TransferError.config
        (ConfigurationError.invalid_frozen_layer_count 12)),
       initialState, []) := by
  constructor
  · exact Or.inl (by decide)
  · have h := transfer_rejects_invalid_trainable_count (Configuration.german true)
      "20170316-180957" (-1) testWorld initialState (Or.inl (by decide))
    simpa using h

/-- C5: transfer-learning training computes `frozen = 11 - trainable`, hands
exactly that frozen count to the model resolver in its arguments, and the
derived run name ends with `-freeze-` followed by that frozen count. -/
theorem transfer_frozen_count_passed_and_in_run_name (cfg : Configuration)
    (ts : String) (trainable_layer_count : Int) :
    (transferPlan cfg ts trainable_layer_count).frozen_layer_count =
      11 - trainable_layer_count ∧
    (transferPlan cfg ts trainable_layer_count).model_args.frozen_layer_count =
      11 - trainable_layer_count ∧
    ∃ p, (transferPlan cfg ts trainable_layer_count).run_name =
      p ++ ("-freeze-" ++ toString (11 - trainable_layer_count)) := by
  refine ⟨rfl, rfl, ts ++ ("-adam-small-learning-rate-transfer-to-" ++ cfg.name), ?_⟩
  simp [transferPlan, String.append_assoc]

/-- C3 counterexample: the derived run name does not encode the source
configuration's name — for the German target the run name is
`20170316-180957-adam-small-learning-rate-transfer-to-German-freeze-10`, and
the source configuration name `English` occurs nowhere in it, so the source is
not recoverable from the directory name. -/
theorem run_name_omits_source_configuration_name :
    c3_run_name =
      "20170316-180957-adam-small-learning-rate-transfer-to-German-freeze-10" ∧
    occursInChars c3_run_name.data "English".data = false := by
  constructor
  · decide
  · decide

/-- C3 (amended): the derived run name has the form
`<timestamp>-adam-small-learning-rate-transfer-to-<target name>-freeze-<frozen count>`,
so the target configuration name and the frozen-layer count are encoded in it
(both occur in the name); the source configuration is the fixed best-English
checkpoint and its name is not part of the run name (see the
counterexample). -/
theorem run_name_encodes_target_and_frozen_count (cfg : Configuration)
    (ts : String) (trainable_layer_count : Int) :
    (transferPlan cfg ts trainable_layer_count).run_name =
      (ts ++ "-adam-small-learning-rate-transfer-to-") ++
        (cfg.name ++ ("-freeze-" ++ toString (11 - trainable_layer_count))) ∧
    occursInChars (transferPlan cfg ts trainable_layer_count).run_name.data
      cfg.name.data = true ∧
    occursInChars (transferPlan cfg ts trainable_layer_count).run_name.data
      ("-freeze-" ++ toString (11 - trainable_layer_count)).data = true := by
  have heq : (transferPlan cfg ts trainable_layer_count).run_name =
      (ts ++ "-adam-small-learning-rate-transfer-to-") ++
        (cfg.name ++ ("-freeze-" ++ toString (11 - trainable_layer_count))) := by
    simp [transferPlan, String.append_assoc]
  refine ⟨heq, ?_, ?_⟩
  · rw [heq, String.data_append, String.data_append]
    exact occursInChars_append_left _ _ _
      (occursInChars_of_startsWith _ _ (startsWithChars_of_append _ _))
  · rw [heq, String.data_append, String.data_append]
    refine occursInChars_append_left _ _ _ (occursInChars_append_left _ _ _ ?_)
    have h0 := startsWithChars_of_append ([] : List Char)
      ("-freeze-" ++ toString (11 - trainable_layer_count)).data
    rw [List.append_nil] at h0
    exact occursInChars_of_startsWith _ _ h0

/-- C4: from a fresh state, `corpus()` invokes the configured loader exactly
once, on the configured corpus directory; every later call returns the
identical memoized Corpus with the state unchanged; `batch_generator()` is
built once from `corpus()` and the cache directory and every later call
returns the identical instance without invoking the loader again. -/
theorem corpus_and_batch_generator_memoized (cfg : Configuration)
    (w w' w'' w''' : CorpusWorld) (c : Corpus)
    (h : runCorpusLoader w cfg.corpus_from_directory cfg.corpus_directory =
      Except.ok c) :
    ∃ st1 st2,
      cfg.corpusGet w initialState = (Except.ok c, st1) ∧
      st1.loaderInvocations = [cfg.corpus_directory] ∧
      cfg.corpusGet w' st1 = (Except.ok c, st1) ∧
      cfg.batchGeneratorGet w'' st1 = (Except.ok (builtGenerator cfg c), st2) ∧
      st2.loaderInvocations = [cfg.corpus_directory] ∧
      cfg.batchGeneratorGet w''' st2 = (Except.ok (builtGenerator cfg c), st2) := by
  refine ⟨{ corpusMemo := some c, batchGeneratorMemo := none, loaderInvocations := [cfg.corpus_directory] },
          { corpusMemo := some c, batchGeneratorMemo := some (builtGenerator cfg c), loaderInvocations := [cfg.corpus_directory] },
          ?_, rfl, rfl, ?_, rfl, rfl⟩
  · simp [Configuration.corpusGet, initialState, h]
  · simp [Configuration.batchGeneratorGet, Configuration.corpusGet, builtGenerator]

/-- Witness for C4: the German Configuration in a world whose loaders
succeed. -/
theorem corpus_and_batch_generator_memoized_witness :
    runCorpusLoader testWorld (Configuration.german true).corpus_from_directory
        (Configuration.german true).corpus_directory = Except.ok { tag := 0 } ∧
    (∃ st1 st2,
      (Configuration.german true).corpusGet testWorld initialState =
        (Except.ok { tag := 0 }, st1) ∧
      st1.loaderInvocations = [(Configuration.german true).corpus_directory] ∧
      (Configuration.german true).corpusGet testWorld st1 =
        (Except.ok { tag := 0 }, st1) ∧
      (Configuration.german true).batchGeneratorGet testWorld st1 =
        (Except.ok (builtGenerator (Configuration.german true) { tag := 0 }), st2) ∧
      st2.loaderInvocations = [(Configuration.german true).corpus_directory] ∧
      (Configuration.german true).batchGeneratorGet testWorld st2 =
        (Except.ok (builtGenerator (Configuration.german true) { tag := 0 }), st2)) :=
  ⟨rfl, corpus_and_batch_generator_memoized (Configuration.german true)
    testWorld testWorld testWorld testWorld { tag := 0 } rfl⟩

/-- C8: when the configured loader fails, `corpus()` propagates the error
(without retrying inside the call: exactly one invocation is appended), the
failure is not memoized, and a subsequent call invokes the loader again (a
second invocation is appended). -/
theorem corpus_failure_propagates_and_is_not_memoized (cfg : Configuration)
    (w w' : CorpusWorld) (e : CorpusError) (st : ConfigState)
    (hm : st.corpusMemo = none)
    (h : runCorpusLoader w cfg.corpus_from_directory cfg.corpus_directory =
      Except.error e) :
    (cfg.corpusGet w st).1 = Except.error e ∧
    (cfg.corpusGet w st).2.corpusMemo = none ∧
    (cfg.corpusGet w st).2.loaderInvocations =
      st.loaderInvocations ++ [cfg.corpus_directory] ∧
    (cfg.corpusGet w' (cfg.corpusGet w st).2).2.loaderInvocations =
      st.loaderInvocations ++ [cfg.corpus_directory, cfg.corpus_directory] := by
  have h1 : cfg.corpusGet w st =
      (Except.error e,
       { st with loaderInvocations :=
          st.loaderInvocations ++ [cfg.corpus_directory] }) := by
    unfold Configuration.corpusGet
    rw [hm, h]
  rw [h1]
  refine ⟨rfl, hm, rfl, ?_⟩
  cases hre : runCorpusLoader w' cfg.corpus_from_directory cfg.corpus_directory with
  | ok c => simp [Configuration.corpusGet, hm, hre]
  | error e2 => simp [Configuration.corpusGet, hm, hre]

/-- Witness for C8: the German Configuration in a world whose loaders fail. -/
theorem corpus_failure_propagates_witness :
    initialState.corpusMemo = none ∧
    runCorpusLoader failingWorld (Configuration.german true).corpus_from_directory
        (Configuration.german true).corpus_directory =
      Except.error (CorpusError.load_failed "missing corpus.csv") ∧
    (((Configuration.german true).corpusGet failingWorld initialState).1 =
      Except.error (CorpusError.load_failed "missing corpus.csv") ∧
    ((Configuration.german true).corpusGet failingWorld initialState).2.corpusMemo =
      none ∧
    ((Configuration.german true).corpusGet failingWorld
        initialState).2.loaderInvocations =
      initialState.loaderInvocations ++ [(Configuration.german true).corpus_directory] ∧
    ((Configuration.german true).corpusGet failingWorld
        ((Configuration.german true).corpusGet failingWorld
          initialState).2).2.loaderInvocations =
      initialState.loaderInvocations ++
        [(Configuration.german true).corpus_directory,
         (Configuration.german true).corpus_directory]) :=
  ⟨rfl, rfl, corpus_failure_propagates_and_is_not_memoized (Configuration.german true)
    failingWorld failingWorld (CorpusError.load_failed "missing corpus.csv")
    initialState rfl rfl⟩

/-- C9: `predict_recording` resolves the pretrained model exactly once, with
all-default arguments — English alphabet, zero frozen layers, no
language-model fusion — and runs that single model's `predict_single` on each
of the five fixed named audio files; it takes no Configuration at all. -/
theorem predict_recording_loads_once_and_predicts_five_files
    (transcribe : Wav2LetterArgs → FsPath → String) :
    loadEvents (predict_recording transcribe) = [default_best_model] ∧
    default_best_model =
      load_best_wav2letter_model 128 0 english_frequent_characters false ∧
    default_best_model.frozen_layer_count = 0 ∧
    default_best_model.kenlm_directory = none ∧
    default_best_model.allowed_characters = english_frequent_characters ∧
    predictEvents (predict_recording transcribe) =
      [(default_best_model, recording_directory ++ ["6930-75918-0000.flac"]),
       (default_best_model, recording_directory ++ ["recording-20170310-135534.wav"]),
       (default_best_model, recording_directory ++ ["recording-20170310-135144.wav"]),
       (default_best_model, recording_directory ++ ["recording-20170314-224329.wav"]),
       (default_best_model, recording_directory ++ ["bad-quality-louis.wav"])] ∧
    printedLines (predict_recording transcribe) =
      ["Predictions: ",
       "Sample labeled \"concord returned to its place amidst the tents\"" ++ ": " ++
         ("\"" ++ transcribe default_best_model
           (recording_directory ++ ["6930-75918-0000.flac"]) ++ "\""),
       "Recorded playback of the same sample" ++ ": " ++
         ("\"" ++ transcribe default_best_model
           (recording_directory ++ ["recording-20170310-135534.wav"]) ++ "\""),
       "Recording of me saying the same sentence" ++ ": " ++
         ("\"" ++ transcribe default_best_model
           (recording_directory ++ ["recording-20170310-135144.wav"]) ++ "\""),
       "Recording of me saying \"I just wrote a speech recognizer\"" ++ ": " ++
         ("\"" ++ transcribe default_best_model
           (recording_directory ++ ["recording-20170314-224329.wav"]) ++ "\""),
       "Louis' rerecording of worse quality" ++ ": " ++
         ("\"" ++ transcribe default_best_model
           (recording_directory ++ ["bad-quality-louis.wav"]) ++ "\"")] :=
  ⟨rfl, rfl, rfl, rfl, rfl, rfl, rfl⟩
